import Mathlib

-- Shallow embedding of the SCAGO grant-application intake form
-- (GrantApplicationForm component, two variants: the Respite variant with a
-- 25 MiB attachment ceiling and the base variant with a 5 MiB ceiling).
-- Strings are modelled by Lean String, JS File objects by a record of the
-- three fields the code reads (name, size, type), and the submission
-- orchestrator onSubmit by a pure function from the draft and an
-- environment (the outcomes of the five external calls) to an outcome
-- carrying the trace of external invocations, the diagnostic logs, and the
-- final UI state.

namespace RETForm

-- ### Character classes used by the JS regexes

/-- Whitespace class of the JavaScript regex escape backslash-s (also the
set trimmed by String.prototype.trim): space, tab, LF, VT, FF, CR, NBSP,
Ogham space mark, the U+2000..U+200A range, line separator, paragraph
separator, narrow NBSP, medium mathematical space, ideographic space, BOM. -/
def isJsSpace (c : Char) : Bool :=
  let n := c.toNat
  n == 32 || (decide (9 ≤ n) && decide (n ≤ 13)) || n == 0xa0 || n == 0x1680 ||
  (decide (0x2000 ≤ n) && decide (n ≤ 0x200a)) || n == 0x2028 || n == 0x2029 ||
  n == 0x202f || n == 0x205f || n == 0x3000 || n == 0xfeff

/-- The JS regex digit class backslash-d, i.e. the ASCII digits 0-9. -/
def isDigit09 (c : Char) : Bool :=
  decide (48 ≤ c.toNat) && decide (c.toNat ≤ 57)

/-- The ASCII alphanumeric class a-zA-Z0-9 of the sanitization regex. -/
def isAsciiAlphaNum (c : Char) : Bool :=
  (decide (48 ≤ c.toNat) && decide (c.toNat ≤ 57)) ||
  (decide (65 ≤ c.toNat) && decide (c.toNat ≤ 90)) ||
  (decide (97 ≤ c.toNat) && decide (c.toNat ≤ 122))

/-- The separator class of the phone regex, the character class
dash dot backslash-s. -/
def isPhoneSep (c : Char) : Bool :=
  c == '-' || c == '.' || isJsSpace c

/-- Number of ASCII digit characters in a string. -/
def countDigits (s : String) : Nat :=
  (s.data.filter isDigit09).length

-- ### The phone-number regex as a matcher
--
-- phoneRegex in the source is anchored
--   caret backslash-(? d{3} backslash-)? [-.s]? d{3} [-.s]? d{4} dollar.
-- Every optional element is a single character from a class disjoint from
-- both the following optional class and the digit class, so the regex
-- matches a string exactly when the greedy left-to-right scan below
-- succeeds and consumes the whole string.

/-- Consume exactly n ASCII digits from the front of the character list,
returning the remainder, or none if a non-digit (or end of input) is hit. -/
def matchDigits : Nat → List Char → Option (List Char)
  | 0, l => some l
  | _ + 1, [] => none
  | n + 1, c :: l => if isDigit09 c then matchDigits n l else none

/-- Consume one optional character satisfying p from the front of the list. -/
def skipOpt (p : Char → Bool) : List Char → List Char
  | [] => []
  | c :: l => if p c then l else c :: l

/-- The anchored phone regex of the source as a whole-string matcher: an
optional opening parenthesis, three digits, an optional closing
parenthesis, an optional separator, three digits, an optional separator,
four digits, end of input. -/
def phoneMatch (s : String) : Bool :=
  match matchDigits 3 (skipOpt (fun c => c == '(') s.data) with
  | none => false
  | some l1 =>
    match matchDigits 3 (skipOpt isPhoneSep (skipOpt (fun c => c == ')') l1)) with
    | none => false
    | some l4 =>
      match matchDigits 4 (skipOpt isPhoneSep l4) with
      | none => false
      | some l6 => l6.isEmpty

-- ### Storage object-name derivation (sanitizedName / fileName in onSubmit)

/-- JavaScript String.prototype.trim: drop leading and trailing whitespace. -/
def jsTrim (s : String) : String :=
  ⟨((s.data.dropWhile isJsSpace).reverse.dropWhile isJsSpace).reverse⟩

/-- The replace of the regex class [^a-zA-Z0-9 backslash-s] by the empty
string: keep only ASCII alphanumerics and whitespace. -/
def stripNonAlnumSpace (l : List Char) : List Char :=
  l.filter (fun c => isAsciiAlphaNum c || isJsSpace c)

/-- Left-to-right scan implementing the global replace of backslash-s+ by
a single hyphen: inRun records whether the previous character belonged to a
whitespace run whose hyphen has already been emitted. -/
def collapseWsAux : Bool → List Char → List Char
  | _, [] => []
  | inRun, c :: l =>
    if isJsSpace c then
      if inRun then collapseWsAux true l else '-' :: collapseWsAux true l
    else c :: collapseWsAux false l

/-- The global replace of backslash-s+ by a single hyphen. -/
def collapseWs (l : List Char) : List Char :=
  collapseWsAux false l

/-- sanitizedName of onSubmit: trim the applicant name, strip every
character that is neither ASCII alphanumeric nor whitespace, then replace
each whitespace run by a single hyphen. -/
def sanitizedName (name : String) : String :=
  ⟨collapseWs (stripNonAlnumSpace (jsTrim name).data)⟩

/-- JavaScript String.prototype.split at a single separator character. -/
def splitOnChar (sep : Char) : List Char → List (List Char)
  | [] => [[]]
  | c :: l =>
    if c == sep then [] :: splitOnChar sep l
    else
      match splitOnChar sep l with
      | [] => [[c]]
      | h :: t => (c :: h) :: t

/-- ASCII lower-casing, the fragment of toLowerCase the extensions use. -/
def asciiToLower (c : Char) : Char :=
  if 65 ≤ c.toNat && c.toNat ≤ 90 then Char.ofNat (c.toNat + 32) else c

/-- fileExt of onSubmit: file.name.split on dot, take the last piece,
lower-case it. -/
def fileExt (fname : String) : String :=
  ⟨((splitOnChar '.' fname.data).getLastD []).map asciiToLower⟩

/-- fileName of onSubmit: the derived storage object name. -/
def fileName (applicantName fname : String) : String :=
  sanitizedName applicantName ++ "-Support-Letter." ++ fileExt fname

-- ### The spec's description of the object-name derivation
--
-- The spec describes the derivation as: strip non-alphanumeric/non-space
-- characters, collapse whitespace runs to single hyphens, append
-- "-Support-Letter." and the extension.  It is written here independently
-- of the code's formulation (no trim step, and a structurally different
-- collapse that keeps the last character of each whitespace run) to be
-- compared against fileName above.

/-- Modelled from the spec: collapse each maximal whitespace run to a
single hyphen, formulated by dropping every whitespace character that is
immediately followed by another whitespace character. -/
def collapseRunsSpec : List Char → List Char
  | [] => []
  | [c] => if isJsSpace c then ['-'] else [c]
  | c1 :: c2 :: l =>
    if isJsSpace c1 && isJsSpace c2 then collapseRunsSpec (c2 :: l)
    else (if isJsSpace c1 then '-' else c1) :: collapseRunsSpec (c2 :: l)

/-- Modelled from the spec: the object-name derivation exactly as the spec
sentence states it — strip, collapse, append — with no trim step. -/
def fileNameSpec (name ext : String) : String :=
  (⟨collapseRunsSpec (stripNonAlnumSpace name.data)⟩ : String) ++
    "-Support-Letter." ++ ext

/-- Modelled from the spec, amended: the same derivation preceded by the
trim of leading and trailing whitespace that the code performs. -/
def fileNameSpecTrim (name ext : String) : String :=
  (⟨collapseRunsSpec (stripNonAlnumSpace (jsTrim name).data)⟩ : String) ++
    "-Support-Letter." ++ ext

-- ### Field validation schema (zod formSchema), the fields the claims cite

/-- MAX_FILE_SIZE of the Respite form variant: 25 MiB. -/
def MAX_FILE_SIZE_25 : Nat := 25 * 1024 * 1024

/-- MAX_FILE_SIZE of the base form variant: 5 MiB. -/
def MAX_FILE_SIZE_5 : Nat := 5 * 1024 * 1024

/-- ACCEPTED_FILE_TYPES, identical in both variants. -/
def ACCEPTED_FILE_TYPES : List String :=
  ["application/pdf", "image/jpeg", "image/png"]

/-- The three fields of a JS File object that the code reads.  A present
value of this type models a genuine File instance, so the instanceof
refinement of the schema holds for it. -/
structure FileRef where
  name : String
  size : Nat
  type : String
deriving DecidableEq

/-- applicantName rule: z.string().min 2. -/
def nameCheck (s : String) : Bool :=
  decide (2 ≤ s.length)

/-- previousGrantUsage rule of the Respite variant:
z.string().optional().or (z.string().min 1 with the message "Please explain
previous grant usage") — the union of an optional-string branch, which
accepts undefined and every string, and a min-length-1 branch. -/
def previousGrantUsageCheck25 (v : Option String) : Bool :=
  (match v with
   | none => true
   | some _ => true) ||
  (match v with
   | none => false
   | some s => decide (1 ≤ s.length))

/-- previousGrantUsage rule of the base variant: z.string().optional(). -/
def previousGrantUsageCheck5 (v : Option String) : Bool :=
  match v with
  | none => true
  | some _ => true

/-- supportLetter rule: the conjunction of the four refinements of the
schema — presence of files[0], files[0] instanceof File, size at most
MAX_FILE_SIZE, type among ACCEPTED_FILE_TYPES. -/
def supportLetterCheck (maxSize : Nat) (files : Option FileRef) : Bool :=
  files.isSome &&
  (match files with
   | none => false
   | some _ => true) &&
  (match files with
   | none => false
   | some f => decide (f.size ≤ maxSize)) &&
  (match files with
   | none => false
   | some f => ACCEPTED_FILE_TYPES.contains f.type)

-- ### Draft, payload, record (the Respite variant, the one whose onSubmit
-- lines the claims cite; the base variant differs only by omitting the
-- isForChild and dateOfBirth fields)

/-- The validated form data handed to onSubmit. -/
structure FormData where
  isForChild : String
  applicantName : String
  dateOfBirth : String
  street : String
  city : String
  province : String
  postalCode : String
  email : String
  phoneNumber : String
  dateGrantRequested : String
  fundsUsage : String
  previousGrant : Bool
  previousGrantUsage : Option String
  supportLetter : Option FileRef
  verifyInformation : Bool
deriving DecidableEq

/-- The mailing-address template literal: street, city, province and
postal code joined as in the source. -/
def mailingAddress (d : FormData) : String :=
  d.street ++ ", " ++ d.city ++ ", " ++ d.province ++ " " ++ d.postalCode

/-- The nested support_letter object of the webhook payload. -/
structure SupportLetterInfo where
  file_name : String
  file_url : String
deriving DecidableEq

/-- formPayload of onSubmit: the normalized JSON body POSTed to the two
webhooks. -/
structure FormPayload where
  is_for_child : Bool
  applicant_name : String
  date_of_birth : String
  mailing_address : String
  email : String
  phone_number : String
  date_requested : String
  funds_usage : String
  previous_grant : Bool
  previous_grant_usage : Option String
  verify_information : Bool
  support_letter : SupportLetterInfo
deriving DecidableEq

/-- The row inserted into the grant_applications table. -/
structure InsertRecord where
  is_for_child : Bool
  applicant_name : String
  date_of_birth : String
  mailing_address : String
  email : String
  phone_number : String
  date_requested : String
  funds_usage : String
  previous_grant : Bool
  previous_grant_usage : Option String
  verify_information : Bool
  support_letter_url : String
deriving DecidableEq

/-- Build formPayload from the draft and the resolved supportLetterUrl,
field for field as in the source. -/
def formPayload (d : FormData) (supportLetterUrl : String) : FormPayload :=
  { is_for_child := d.isForChild == "yes"
    applicant_name := d.applicantName
    date_of_birth := d.dateOfBirth
    mailing_address := mailingAddress d
    email := d.email
    phone_number := d.phoneNumber
    date_requested := d.dateGrantRequested
    funds_usage := d.fundsUsage
    previous_grant := d.previousGrant
    previous_grant_usage := d.previousGrantUsage
    verify_information := d.verifyInformation
    support_letter :=
      { file_name :=
          match d.supportLetter with
          | some f => f.name
          | none => ""
        file_url := supportLetterUrl } }

/-- Build the inserted row from the draft and the resolved
supportLetterUrl, field for field as in the source. -/
def insertRecord (d : FormData) (supportLetterUrl : String) : InsertRecord :=
  { is_for_child := d.isForChild == "yes"
    applicant_name := d.applicantName
    date_of_birth := d.dateOfBirth
    mailing_address := mailingAddress d
    email := d.email
    phone_number := d.phoneNumber
    date_requested := d.dateGrantRequested
    funds_usage := d.fundsUsage
    previous_grant := d.previousGrant
    previous_grant_usage := d.previousGrantUsage
    verify_information := d.verifyInformation
    support_letter_url := supportLetterUrl }

-- ### The submission orchestrator (onSubmit)
--
-- onSubmit is a straight-line async procedure over five external calls:
-- storage upload, public-URL resolution, storage listing, two webhook
-- POSTs and a database insert.  It is embedded as a pure function of the
-- draft and an environment fixing each call's outcome.  The outcome
-- records the trace of external invocations in order, the console logs,
-- whether setSubmitSuccess true ran, the final submitError, and the draft
-- (which onSubmit never mutates; reset is only tied to the user-facing
-- reset button, outside onSubmit).

/-- Outcome of one webhook fetch: resolved with an ok status, resolved
with a non-success status (its body text is read and warned), or rejected
with a network error. -/
inductive WebhookOutcome where
  | ok : WebhookOutcome
  | nonOk : String → WebhookOutcome
  | throwsErr : String → WebhookOutcome
deriving DecidableEq

/-- Environment: the outcome of each external call.  insertError is none
on insert success; some (some m) models a thrown Error whose message is m;
some none models a thrown non-Error value. -/
structure Env where
  uploadError : Bool
  publicUrl : String → String
  checkError : Bool
  checkData : Option Nat
  makeOutcome : WebhookOutcome
  retoolOutcome : WebhookOutcome
  insertError : Option (Option String)

/-- The external invocations onSubmit can issue, in trace order. -/
inductive Event where
  | upload : String → Event
  | getPublicUrl : String → Event
  | listQuery : String → Event
  | makeWebhook : FormPayload → Event
  | retoolWebhook : FormPayload → Event
  | insert : InsertRecord → Event
  | successCallback : Event
deriving DecidableEq

/-- Result of one run of onSubmit. -/
structure SubmitOutcome where
  events : List Event
  logs : List String
  submitSuccess : Bool
  submitError : Option String
  draftAfter : FormData
deriving DecidableEq

/-- The message of the Error thrown when the upload stage fails. -/
def uploadFailMsg : String := "Failed to upload support letter. Please try again."

/-- The outer catch: error instanceof Error gives its message, anything
else the generic fallback. -/
def caughtMsg (e : Option String) : String :=
  match e with
  | some m => m
  | none => "An error occurred"

/-- Console output of one wrapped webhook call. -/
def webhookLogs (label : String) (o : WebhookOutcome) : List String :=
  match o with
  | .ok => []
  | .nonOk t => [label ++ " webhook warning: " ++ t]
  | .throwsErr e => [label ++ " webhook error: " ++ e]

/-- The listing verification failed: checkError, or checkData null or
empty. -/
def checkFailed (env : Env) : Bool :=
  env.checkError ||
  (match env.checkData with
   | none => true
   | some n => n == 0)

/-- The tail of onSubmit after the upload stage: build formPayload, POST
it to the Make webhook then the Retool webhook (each wrapped so that its
failure is only logged), insert the row, and on insert success set the
success state and fire the onSuccess callback; on insert failure the
thrown error reaches the outer catch and fills submitError. -/
def afterUploadStage (d : FormData) (env : Env) (url : String)
    (ev : List Event) (lg : List String) : SubmitOutcome :=
  let payload := formPayload d url
  let ev := ev ++ [Event.makeWebhook payload, Event.retoolWebhook payload]
  let lg := lg ++ webhookLogs "Make" env.makeOutcome ++
    webhookLogs "Retool" env.retoolOutcome
  let ev := ev ++ [Event.insert (insertRecord d url)]
  match env.insertError with
  | none =>
      { events := ev ++ [Event.successCallback]
        logs := lg
        submitSuccess := true
        submitError := none
        draftAfter := d }
  | some e =>
      { events := ev
        logs := lg
        submitSuccess := false
        submitError := some (caughtMsg e)
        draftAfter := d }

/-- onSubmit of the source: if a support letter is attached, upload it
under the derived object name, resolve its public URL, verify its
existence by a listing query — any failure in this stage is rethrown as
the upload-failure Error and aborts the run — then proceed to webhooks,
insert and success signalling with the resolved URL (the empty string when
no file is attached). -/
def onSubmit (d : FormData) (env : Env) : SubmitOutcome :=
  match d.supportLetter with
  | none => afterUploadStage d env "" [] []
  | some file =>
    let objectName := fileName d.applicantName file.name
    if env.uploadError then
      { events := [Event.upload objectName]
        logs := ["Upload error details:", "Storage error:"]
        submitSuccess := false
        submitError := some uploadFailMsg
        draftAfter := d }
    else
      let url := env.publicUrl objectName
      let ev := [Event.upload objectName, Event.getPublicUrl objectName,
        Event.listQuery objectName]
      if checkFailed env then
        { events := ev
          logs := ["Storage error:"]
          submitSuccess := false
          submitError := some uploadFailMsg
          draftAfter := d }
      else
        afterUploadStage d env url ev []

/-- Whether the trace contains a database insert attempt. -/
def insertAttempted (o : SubmitOutcome) : Bool :=
  o.events.any fun e =>
    match e with
    | .insert _ => true
    | _ => false

/-- The externally observable part of a submit outcome: trace, success
flag, user-facing error, draft — everything except the console logs. -/
def submitView (o : SubmitOutcome) : List Event × Bool × Option String × FormData :=
  (o.events, o.submitSuccess, o.submitError, o.draftAfter)

-- ### Concrete sample data used by the witnesses

/-- A fully valid draft with a PDF attachment. -/
def draftBase : FormData :=
  { isForChild := "no"
    applicantName := "Jane Doe"
    dateOfBirth := "1990-01-01"
    street := "123 Main St"
    city := "Toronto"
    province := "Ontario"
    postalCode := "A1A 1A1"
    email := "jane@example.com"
    phoneNumber := "416-555-0123"
    dateGrantRequested := "2025-01-01"
    fundsUsage := "Medication and travel costs"
    previousGrant := false
    previousGrantUsage := none
    supportLetter := some ⟨"a.pdf", 1000, "application/pdf"⟩
    verifyInformation := true }

/-- The same draft with the attached file renamed. -/
def draftAltName : FormData :=
  { draftBase with supportLetter := some ⟨"b.pdf", 1000, "application/pdf"⟩ }

/-- The same draft with no attachment. -/
def draftNoFile : FormData :=
  { draftBase with supportLetter := none }

/-- Environment in which every external call succeeds. -/
def envOk : Env :=
  { uploadError := false
    publicUrl := fun n => "https://cdn.example/" ++ n
    checkError := false
    checkData := some 1
    makeOutcome := .ok
    retoolOutcome := .ok
    insertError := none }

/-- Environment in which the storage upload fails. -/
def envUploadFail : Env :=
  { envOk with uploadError := true }

/-- Environment in which the database insert fails with an Error. -/
def envInsertFail : Env :=
  { envOk with insertError := some (some "duplicate key") }

/-- Environment in which the Make webhook fetch throws a network error. -/
def envMakeFail : Env :=
  { envOk with makeOutcome := WebhookOutcome.throwsErr "net down" }

-- ### Theorems

/-- C1: the claim states that a draft with previousGrant true and an empty
previousGrantUsage fails validation with an error on that field.  The code
does not do this: the Respite variant's rule optional-or-min-1 is a union
whose first branch accepts undefined and every string, so the min-1 branch
is dead, and the base variant's rule is plain optional; neither rule even
reads previousGrant.  This theorem evaluates the code at the failing
input: both variants' previous-grant-usage checks accept every value,
including the empty string, so validation never blocks on this field. -/
theorem C1_previousGrantUsage_never_blocks :
    (∀ v : Option String, previousGrantUsageCheck25 v = true) ∧
    (∀ v : Option String, previousGrantUsageCheck5 v = true) ∧
    previousGrantUsageCheck25 (some "") = true ∧
    previousGrantUsageCheck5 (some "") = true := by
  refine ⟨fun v => ?_, fun v => ?_, rfl, rfl⟩ <;> cases v <;> rfl

/-- C7: for any attachment of an accepted MIME type, the supportLetter
rule passes when the byte size is exactly the ceiling (25 MiB in the
Respite variant, 5 MiB in the base variant) and fails at one byte over. -/
theorem C7_size_ceiling_boundary :
    ∀ (nm ty : String), ty ∈ ACCEPTED_FILE_TYPES →
      supportLetterCheck MAX_FILE_SIZE_25 (some ⟨nm, MAX_FILE_SIZE_25, ty⟩) = true ∧
      supportLetterCheck MAX_FILE_SIZE_25 (some ⟨nm, MAX_FILE_SIZE_25 + 1, ty⟩) = false ∧
      supportLetterCheck MAX_FILE_SIZE_5 (some ⟨nm, MAX_FILE_SIZE_5, ty⟩) = true ∧
      supportLetterCheck MAX_FILE_SIZE_5 (some ⟨nm, MAX_FILE_SIZE_5 + 1, ty⟩) = false := by
  intro nm ty hty
  refine ⟨?_, ?_, ?_, ?_⟩ <;> simp [supportLetterCheck, hty]

/-- C7 witness: the boundary evaluations at a concrete PDF attachment. -/
theorem C7_witness :
    supportLetterCheck MAX_FILE_SIZE_25 (some ⟨"letter.pdf", MAX_FILE_SIZE_25, "application/pdf"⟩) = true ∧
    supportLetterCheck MAX_FILE_SIZE_25 (some ⟨"letter.pdf", MAX_FILE_SIZE_25 + 1, "application/pdf"⟩) = false ∧
    supportLetterCheck MAX_FILE_SIZE_5 (some ⟨"letter.pdf", MAX_FILE_SIZE_5, "application/pdf"⟩) = true ∧
    supportLetterCheck MAX_FILE_SIZE_5 (some ⟨"letter.pdf", MAX_FILE_SIZE_5 + 1, "application/pdf"⟩) = false :=
  C7_size_ceiling_boundary "letter.pdf" "application/pdf" (by decide)

/-- The scanning collapse of the code and the run-dropping collapse of the
spec agree; the second conjunct relates the spec form on a list headed by
a whitespace character to the scan in its inRun state. -/
theorem collapseWsAux_eq_spec :
    ∀ l : List Char,
      collapseWsAux false l = collapseRunsSpec l ∧
      ∀ c, isJsSpace c = true → collapseRunsSpec (c :: l) = '-' :: collapseWsAux true l := by
  intro l
  induction l with
  | nil =>
    refine ⟨rfl, fun c hc => ?_⟩
    simp [collapseRunsSpec, collapseWsAux, hc]
  | cons c l ih =>
    have h1 : collapseWsAux false (c :: l) = collapseRunsSpec (c :: l) := by
      cases hc : isJsSpace c with
      | true =>
        rw [ih.2 c hc]
        simp [collapseWsAux, hc]
      | false =>
        cases l with
        | nil => simp [collapseWsAux, collapseRunsSpec, hc]
        | cons c2 t =>
          simp only [collapseWsAux, hc, Bool.false_eq_true, if_false,
            collapseRunsSpec, Bool.false_and]
          rw [← ih.1]
          rfl
    refine ⟨h1, fun c0 hc0 => ?_⟩
    cases hc : isJsSpace c with
    | true =>
      have h2 : collapseRunsSpec (c0 :: c :: l) = collapseRunsSpec (c :: l) := by
        simp [collapseRunsSpec, hc0, hc]
      rw [h2, ih.2 c hc]
      simp [collapseWsAux, hc]
    | false =>
      have h2 : collapseRunsSpec (c0 :: c :: l) = '-' :: collapseRunsSpec (c :: l) := by
        simp [collapseRunsSpec, hc0, hc]
      have h3 : collapseWsAux true (c :: l) = collapseWsAux false (c :: l) := by
        simp [collapseWsAux, hc]
      rw [h2, ← h1, h3]

/-- The code's whitespace collapse equals the spec's. -/
theorem collapseWs_eq_spec (l : List Char) : collapseWs l = collapseRunsSpec l :=
  (collapseWsAux_eq_spec l).1

/-- C6 counterexample: the claim derives the object name by stripping and
collapsing alone, but the code trims the applicant name first.  On the
valid applicant name "ab " (trailing space, length 2) the code produces
"ab-Support-Letter.pdf" while the claim's derivation produces
"ab--Support-Letter.pdf": the claim as stated is false at this input. -/
theorem C6_counterexample :
    fileName "ab " "x.pdf" = "ab-Support-Letter.pdf" ∧
    fileNameSpec "ab " (fileExt "x.pdf") = "ab--Support-Letter.pdf" ∧
    fileName "ab " "x.pdf" ≠ fileNameSpec "ab " (fileExt "x.pdf") := by
  decide

/-- C6 amended: the storage object name is derived by first trimming
leading and trailing whitespace from the applicant name, then stripping
non-alphanumeric/non-space characters, collapsing whitespace runs to
single hyphens, and appending "-Support-Letter." plus the file's
lower-cased extension; the derivation is a deterministic function of the
applicant name and the file's extension, so resubmitting with the same
name and extension targets the identical object name. -/
theorem C6_fileName_amended :
    (∀ name fname : String, fileName name fname = fileNameSpecTrim name (fileExt fname)) ∧
    (∀ n f1 f2 : String, fileExt f1 = fileExt f2 → fileName n f1 = fileName n f2) := by
  constructor
  · intro name fname
    unfold fileName fileNameSpecTrim sanitizedName
    rw [collapseWs_eq_spec]
  · intro n f1 f2 h
    unfold fileName
    rw [h]

/-- C6 witness: the amended derivation and the determinism, evaluated at
the name "Jo" and the files "a.PDF" and "b.pdf" (same extension). -/
theorem C6_witness :
    fileName "Jo" "a.PDF" = fileNameSpecTrim "Jo" (fileExt "a.PDF") ∧
    fileName "Jo" "a.PDF" = fileName "Jo" "b.pdf" :=
  ⟨C6_fileName_amended.1 "Jo" "a.PDF",
   C6_fileName_amended.2 "Jo" "a.PDF" "b.pdf" (by decide)⟩

/-- C9: the object-name sanitization is not injective over names passing
the min-length-2 rule: the distinct valid names "ab" and "a.b" sanitize
identically, hence derive the same storage object name, and the valid name
"!!" sanitizes to the empty string. -/
theorem C9_sanitization_collision :
    ("ab" : String) ≠ "a.b" ∧
    nameCheck "ab" = true ∧ nameCheck "a.b" = true ∧
    sanitizedName "ab" = sanitizedName "a.b" ∧
    fileName "ab" "x.pdf" = fileName "a.b" "x.pdf" ∧
    nameCheck "!!" = true ∧ sanitizedName "!!" = "" := by
  decide

/-- Consuming n digits removes exactly n digit characters. -/
theorem matchDigits_count :
    ∀ (n : Nat) (l l' : List Char), matchDigits n l = some l' →
      (l.filter isDigit09).length = n + (l'.filter isDigit09).length := by
  intro n
  induction n with
  | zero =>
    intro l l' h
    simp only [matchDigits, Option.some_inj] at h
    subst h
    simp
  | succ n ih =>
    intro l l' h
    cases l with
    | nil => simp [matchDigits] at h
    | cons c t =>
      simp only [matchDigits] at h
      cases hc : isDigit09 c with
      | false => rw [hc] at h; simp at h
      | true =>
        rw [hc] at h
        simp only [if_true] at h
        have := ih t l' h
        simp [List.filter_cons, hc, this]
        omega

/-- Skipping an optional non-digit character preserves the digit count. -/
theorem skipOpt_count (p : Char → Bool)
    (hp : ∀ c, p c = true → isDigit09 c = false) :
    ∀ l : List Char,
      ((skipOpt p l).filter isDigit09).length = (l.filter isDigit09).length := by
  intro l
  cases l with
  | nil => rfl
  | cons c t =>
    simp only [skipOpt]
    cases hc : p c with
    | false => simp
    | true =>
      have hd := hp c hc
      simp [List.filter_cons, hd]

/-- An opening parenthesis is not a digit. -/
theorem parenOpen_not_digit : ∀ c : Char, (c == '(') = true → isDigit09 c = false := by
  intro c hc
  have h : c = '(' := by simpa using hc
  subst h
  decide

/-- A closing parenthesis is not a digit. -/
theorem parenClose_not_digit : ∀ c : Char, (c == ')') = true → isDigit09 c = false := by
  intro c hc
  have h : c = ')' := by simpa using hc
  subst h
  decide

/-- No whitespace character is a digit. -/
theorem jsSpace_not_digit : ∀ c : Char, isJsSpace c = true → isDigit09 c = false := by
  intro c h
  cases hd : isDigit09 c with
  | false => rfl
  | true =>
    exfalso
    simp only [isDigit09, Bool.and_eq_true, decide_eq_true_eq] at hd
    simp only [isJsSpace, Bool.or_eq_true, Bool.and_eq_true, decide_eq_true_eq,
      beq_iff_eq] at h
    omega

/-- No phone separator character is a digit. -/
theorem phoneSep_not_digit : ∀ c : Char, isPhoneSep c = true → isDigit09 c = false := by
  intro c h
  simp only [isPhoneSep, Bool.or_eq_true, beq_iff_eq] at h
  rcases h with (h | h) | h
  · subst h; decide
  · subst h; decide
  · exact jsSpace_not_digit c h

/-- C8: the phone rule accepts a string only if it contains exactly ten
digit characters (the regex shape three-three-four with optional
parentheses and dash, dot or space separators); every string whose digit
count is not ten is rejected, and both "416-555-0123" and
"(416) 555-0123" are accepted. -/
theorem C8_phone_ten_digits :
    (∀ s : String, phoneMatch s = true → countDigits s = 10) ∧
    (∀ s : String, countDigits s ≠ 10 → phoneMatch s = false) ∧
    phoneMatch "416-555-0123" = true ∧
    phoneMatch "(416) 555-0123" = true := by
  have main : ∀ s : String, phoneMatch s = true → countDigits s = 10 := by
    intro s h
    unfold phoneMatch at h
    cases hm1 : matchDigits 3 (skipOpt (fun c => c == '(') s.data) with
    | none => rw [hm1] at h; simp at h
    | some l1 =>
      rw [hm1] at h
      simp only [] at h
      cases hm2 : matchDigits 3 (skipOpt isPhoneSep (skipOpt (fun c => c == ')') l1)) with
      | none => rw [hm2] at h; simp at h
      | some l4 =>
        rw [hm2] at h
        simp only [] at h
        cases hm3 : matchDigits 4 (skipOpt isPhoneSep l4) with
        | none => rw [hm3] at h; simp at h
        | some l6 =>
          rw [hm3] at h
          simp only [List.isEmpty_iff] at h
          subst h
          have e0 := skipOpt_count (fun c => c == '(') parenOpen_not_digit s.data
          have e1 := matchDigits_count 3 _ _ hm1
          have e2 := skipOpt_count (fun c => c == ')') parenClose_not_digit l1
          have e3 := skipOpt_count isPhoneSep phoneSep_not_digit
            (skipOpt (fun c => c == ')') l1)
          have e4 := matchDigits_count 3 _ _ hm2
          have e5 := skipOpt_count isPhoneSep phoneSep_not_digit l4
          have e6 := matchDigits_count 4 _ _ hm3
          have e7 : ((([] : List Char)).filter isDigit09).length = 0 := rfl
          unfold countDigits
          omega
  refine ⟨main, fun s hs => ?_, by decide, by decide⟩
  cases hp : phoneMatch s with
  | false => rfl
  | true => exact absurd (main s hp) hs

/-- C8 witness: the accepted sample has ten digits, and an eleven-digit
string is rejected. -/
theorem C8_witness :
    countDigits "416-555-0123" = 10 ∧ phoneMatch "416-555-01234" = false := by
  constructor
  · exact C8_phone_ten_digits.1 "416-555-0123" (by decide)
  · exact C8_phone_ten_digits.2.1 "416-555-01234" (by decide)

-- ### Shape lemmas for the orchestrator

/-- The tail of onSubmit, written out: webhook events, insert event, and
on insert success the callback. -/
theorem afterUploadStage_eq (d : FormData) (env : Env) (url : String)
    (ev : List Event) (lg : List String) :
    afterUploadStage d env url ev lg =
      { events := ev ++ [Event.makeWebhook (formPayload d url),
          Event.retoolWebhook (formPayload d url),
          Event.insert (insertRecord d url)] ++
          (match env.insertError with
           | none => [Event.successCallback]
           | some _ => [])
        logs := lg ++ webhookLogs "Make" env.makeOutcome ++
          webhookLogs "Retool" env.retoolOutcome
        submitSuccess := env.insertError.isNone
        submitError :=
          match env.insertError with
          | none => none
          | some e => some (caughtMsg e)
        draftAfter := d } := by
  unfold afterUploadStage
  cases env.insertError <;> simp

/-- onSubmit on a draft without attachment. -/
theorem onSubmit_noFile (d : FormData) (env : Env) (h : d.supportLetter = none) :
    onSubmit d env = afterUploadStage d env "" [] [] := by
  unfold onSubmit
  rw [h]

/-- onSubmit on a draft with attachment when the upload errors. -/
theorem onSubmit_uploadErr (d : FormData) (env : Env) (f : FileRef)
    (h : d.supportLetter = some f) (hu : env.uploadError = true) :
    onSubmit d env =
      { events := [Event.upload (fileName d.applicantName f.name)]
        logs := ["Upload error details:", "Storage error:"]
        submitSuccess := false
        submitError := some uploadFailMsg
        draftAfter := d } := by
  unfold onSubmit
  rw [h]
  simp [hu]

/-- onSubmit on a draft with attachment when the upload succeeds but the
listing verification fails. -/
theorem onSubmit_checkFail (d : FormData) (env : Env) (f : FileRef)
    (h : d.supportLetter = some f) (hu : env.uploadError = false)
    (hc : checkFailed env = true) :
    onSubmit d env =
      { events := [Event.upload (fileName d.applicantName f.name),
          Event.getPublicUrl (fileName d.applicantName f.name),
          Event.listQuery (fileName d.applicantName f.name)]
        logs := ["Storage error:"]
        submitSuccess := false
        submitError := some uploadFailMsg
        draftAfter := d } := by
  unfold onSubmit
  rw [h]
  simp [hu, hc]

/-- onSubmit on a draft with attachment when upload and verification
succeed. -/
theorem onSubmit_uploadOk (d : FormData) (env : Env) (f : FileRef)
    (h : d.supportLetter = some f) (hu : env.uploadError = false)
    (hc : checkFailed env = false) :
    onSubmit d env =
      afterUploadStage d env
        (env.publicUrl (fileName d.applicantName f.name))
        [Event.upload (fileName d.applicantName f.name),
         Event.getPublicUrl (fileName d.applicantName f.name),
         Event.listQuery (fileName d.applicantName f.name)] [] := by
  unfold onSubmit
  rw [h]
  simp [hu, hc]

/-- Two environments agreeing on everything but the webhook outcomes give
the same observable submit outcome. -/
theorem submitView_webhook_invariant (d : FormData) (e1 e2 : Env)
    (hup : e1.uploadError = e2.uploadError)
    (hpub : e1.publicUrl = e2.publicUrl)
    (hck : e1.checkError = e2.checkError)
    (hcd : e1.checkData = e2.checkData)
    (hins : e1.insertError = e2.insertError) :
    submitView (onSubmit d e1) = submitView (onSubmit d e2) := by
  have hcf : checkFailed e1 = checkFailed e2 := by
    unfold checkFailed
    rw [hck, hcd]
  cases hs : d.supportLetter with
  | some f =>
    cases hu : e1.uploadError with
    | true =>
      rw [onSubmit_uploadErr d e1 f hs hu,
        onSubmit_uploadErr d e2 f hs (hup ▸ hu)]
    | false =>
      cases hc : checkFailed e1 with
      | true =>
        rw [onSubmit_checkFail d e1 f hs hu hc,
          onSubmit_checkFail d e2 f hs (hup ▸ hu) (hcf ▸ hc)]
      | false =>
        rw [onSubmit_uploadOk d e1 f hs hu hc,
          onSubmit_uploadOk d e2 f hs (hup ▸ hu) (hcf ▸ hc),
          afterUploadStage_eq, afterUploadStage_eq]
        simp [submitView, hpub, hins]
  | none =>
    rw [onSubmit_noFile d e1 hs, onSubmit_noFile d e2 hs,
      afterUploadStage_eq, afterUploadStage_eq]
    simp [submitView, hins]

/-- Whenever the Make webhook was invoked with some payload, the Retool
webhook is invoked with the same payload, the insert is attempted with
the matching record, the callback fires on insert success, and a thrown
Make failure shows up in the logs. -/
theorem makeWebhook_mem_facts (d : FormData) (env : Env) (p : FormPayload)
    (hp : Event.makeWebhook p ∈ (onSubmit d env).events) :
    Event.retoolWebhook p ∈ (onSubmit d env).events ∧
    Event.insert (insertRecord d p.support_letter.file_url) ∈ (onSubmit d env).events ∧
    (env.insertError = none → Event.successCallback ∈ (onSubmit d env).events) ∧
    (∀ e, env.makeOutcome = WebhookOutcome.throwsErr e →
      ("Make webhook error: " ++ e) ∈ (onSubmit d env).logs) := by
  cases hs : d.supportLetter with
  | some f =>
    cases hu : env.uploadError with
    | true =>
      rw [onSubmit_uploadErr d env f hs hu] at hp
      exact absurd hp (by simp)
    | false =>
      cases hc : checkFailed env with
      | true =>
        rw [onSubmit_checkFail d env f hs hu hc] at hp
        exact absurd hp (by simp)
      | false =>
        rw [onSubmit_uploadOk d env f hs hu hc, afterUploadStage_eq] at hp ⊢
        have hpp : p = formPayload d (env.publicUrl (fileName d.applicantName f.name)) := by
          cases he : env.insertError <;> rw [he] at hp <;> simpa using hp
        subst hpp
        refine ⟨by cases he : env.insertError <;> simp, ?_, ?_, ?_⟩
        · cases he : env.insertError <;> simp [formPayload]
        · intro he
          rw [he]
          simp
        · intro e he1
          cases he : env.insertError <;> simp [webhookLogs, he1]
  | none =>
    rw [onSubmit_noFile d env hs, afterUploadStage_eq] at hp ⊢
    have hpp : p = formPayload d "" := by
      cases he : env.insertError <;> rw [he] at hp <;> simpa using hp
    subst hpp
    refine ⟨by cases he : env.insertError <;> simp, ?_, ?_, ?_⟩
    · cases he : env.insertError <;> simp [formPayload]
    · intro he
      rw [he]
      simp
    · intro e he1
      cases he : env.insertError <;> simp [webhookLogs, he1]

/-- C2: for every submission, the outcome of either webhook POST (ok
response, non-success status, or a thrown network error) leaves the trace
of external invocations, the success flag, the user-facing error and the
draft unchanged; when the Make webhook was invoked with some payload, the
Retool webhook is invoked with the same payload and the durable insert is
still attempted, the success callback still fires on insert success, and a
thrown webhook failure is recorded in the diagnostic logs only. -/
theorem C2_webhook_failures_swallowed :
    ∀ (d : FormData) (env : Env) (w1 w2 w1' w2' : WebhookOutcome),
      submitView (onSubmit d { env with makeOutcome := w1, retoolOutcome := w2 }) =
        submitView (onSubmit d { env with makeOutcome := w1', retoolOutcome := w2' }) ∧
      (∀ p : FormPayload,
        Event.makeWebhook p ∈ (onSubmit d { env with makeOutcome := w1, retoolOutcome := w2 }).events →
        Event.retoolWebhook p ∈ (onSubmit d { env with makeOutcome := w1, retoolOutcome := w2 }).events ∧
        Event.insert (insertRecord d p.support_letter.file_url) ∈
          (onSubmit d { env with makeOutcome := w1, retoolOutcome := w2 }).events ∧
        (env.insertError = none →
          Event.successCallback ∈
            (onSubmit d { env with makeOutcome := w1, retoolOutcome := w2 }).events) ∧
        (∀ e, w1 = WebhookOutcome.throwsErr e →
          ("Make webhook error: " ++ e) ∈
            (onSubmit d { env with makeOutcome := w1, retoolOutcome := w2 }).logs)) := by
  intro d env w1 w2 w1' w2'
  refine ⟨submitView_webhook_invariant d _ _ rfl rfl rfl rfl rfl, fun p hp => ?_⟩
  exact makeWebhook_mem_facts d { env with makeOutcome := w1, retoolOutcome := w2 } p hp

/-- C2 witness: on the sample draft, a thrown Make webhook error leaves
the observable outcome identical to the all-success run, the Retool
webhook and the insert still happen, the callback still fires, and the
failure appears in the logs. -/
theorem C2_witness :
    submitView (onSubmit draftBase envMakeFail) = submitView (onSubmit draftBase envOk) ∧
    Event.retoolWebhook (formPayload draftBase "https://cdn.example/Jane-Doe-Support-Letter.pdf") ∈
      (onSubmit draftBase envMakeFail).events ∧
    Event.successCallback ∈ (onSubmit draftBase envMakeFail).events ∧
    ("Make webhook error: " ++ "net down") ∈ (onSubmit draftBase envMakeFail).logs := by
  have h := C2_webhook_failures_swallowed draftBase envOk
    (WebhookOutcome.throwsErr "net down") WebhookOutcome.ok
    WebhookOutcome.ok WebhookOutcome.ok
  have h2 := h.2 (formPayload draftBase "https://cdn.example/Jane-Doe-Support-Letter.pdf")
    (by decide)
  exact ⟨h.1, h2.1, h2.2.2.1 rfl, h2.2.2.2 "net down" rfl⟩

/-- C3: on a draft with an attachment, an upload error aborts the run with
only the upload event issued and the upload-failure message, with no
webhook and no insert; a listing-verification failure (query error, null
data, or no match) aborts likewise after only the storage events; when
upload and verification succeed the trace is exactly upload, URL
resolution, listing, the two webhooks, the insert, and (on insert success)
the callback — so whenever an insert event occurs at all, the upload
succeeded and the listing confirmed the object, and the insert follows
both in the trace. -/
theorem C3_insert_after_verified_upload :
    ∀ (d : FormData) (f : FileRef) (env : Env), d.supportLetter = some f →
      (env.uploadError = true →
        (onSubmit d env).events = [Event.upload (fileName d.applicantName f.name)] ∧
        (onSubmit d env).submitError = some uploadFailMsg ∧
        (onSubmit d env).submitSuccess = false) ∧
      (env.uploadError = false → checkFailed env = true →
        (onSubmit d env).events =
          [Event.upload (fileName d.applicantName f.name),
           Event.getPublicUrl (fileName d.applicantName f.name),
           Event.listQuery (fileName d.applicantName f.name)] ∧
        (onSubmit d env).submitError = some uploadFailMsg ∧
        (onSubmit d env).submitSuccess = false) ∧
      (env.uploadError = false → checkFailed env = false →
        (onSubmit d env).events =
          [Event.upload (fileName d.applicantName f.name),
           Event.getPublicUrl (fileName d.applicantName f.name),
           Event.listQuery (fileName d.applicantName f.name),
           Event.makeWebhook (formPayload d (env.publicUrl (fileName d.applicantName f.name))),
           Event.retoolWebhook (formPayload d (env.publicUrl (fileName d.applicantName f.name))),
           Event.insert (insertRecord d (env.publicUrl (fileName d.applicantName f.name)))] ++
          (match env.insertError with
           | none => [Event.successCallback]
           | some _ => [])) ∧
      (∀ r : InsertRecord, Event.insert r ∈ (onSubmit d env).events →
        env.uploadError = false ∧ checkFailed env = false) := by
  intro d f env hs
  refine ⟨fun hu => ?_, fun hu hc => ?_, fun hu hc => ?_, fun r hr => ?_⟩
  · rw [onSubmit_uploadErr d env f hs hu]
    exact ⟨rfl, rfl, rfl⟩
  · rw [onSubmit_checkFail d env f hs hu hc]
    exact ⟨rfl, rfl, rfl⟩
  · rw [onSubmit_uploadOk d env f hs hu hc, afterUploadStage_eq]
    cases env.insertError <;> simp
  · cases hu : env.uploadError with
    | true =>
      rw [onSubmit_uploadErr d env f hs hu] at hr
      exact absurd hr (by simp)
    | false =>
      cases hc : checkFailed env with
      | true =>
        rw [onSubmit_checkFail d env f hs hu hc] at hr
        exact absurd hr (by simp)
      | false => exact ⟨rfl, rfl⟩

/-- C3 witness: on the sample draft, an upload failure yields exactly the
upload event, the upload-failure message and no success. -/
theorem C3_witness :
    (onSubmit draftBase envUploadFail).events =
      [Event.upload (fileName draftBase.applicantName "a.pdf")] ∧
    (onSubmit draftBase envUploadFail).submitError = some uploadFailMsg ∧
    (onSubmit draftBase envUploadFail).submitSuccess = false :=
  (C3_insert_after_verified_upload draftBase ⟨"a.pdf", 1000, "application/pdf"⟩
    envUploadFail rfl).1 rfl

/-- C4: the success callback occurs in the trace exactly once when the
insert was attempted and succeeded, and zero times otherwise; its presence
implies insert success; when the insert was attempted and failed, the
callback is absent, the success state is not set, and the user-facing
error is the thrown error's message — or the generic fallback when the
thrown value carries no message; and onSubmit leaves the draft unchanged
in every run. -/
theorem C4_success_callback :
    ∀ (d : FormData) (env : Env),
      ((onSubmit d env).events.count Event.successCallback =
        if insertAttempted (onSubmit d env) && env.insertError.isNone then 1 else 0) ∧
      (Event.successCallback ∈ (onSubmit d env).events → env.insertError = none) ∧
      (∀ e, insertAttempted (onSubmit d env) = true → env.insertError = some e →
        Event.successCallback ∉ (onSubmit d env).events ∧
        (onSubmit d env).submitSuccess = false ∧
        (onSubmit d env).submitError = some (caughtMsg e)) ∧
      (onSubmit d env).draftAfter = d := by
  intro d env
  cases hs : d.supportLetter with
  | some f =>
    cases hu : env.uploadError with
    | true =>
      rw [onSubmit_uploadErr d env f hs hu]
      refine ⟨rfl, ?_, ?_, rfl⟩
      · intro hmem
        exact absurd hmem (by simp)
      · intro e hatt _
        exact absurd hatt (by simp [insertAttempted])
    | false =>
      cases hc : checkFailed env with
      | true =>
        rw [onSubmit_checkFail d env f hs hu hc]
        refine ⟨rfl, ?_, ?_, rfl⟩
        · intro hmem
          exact absurd hmem (by simp)
        · intro e hatt _
          exact absurd hatt (by simp [insertAttempted])
      | false =>
        rw [onSubmit_uploadOk d env f hs hu hc, afterUploadStage_eq]
        cases he : env.insertError with
        | none =>
          refine ⟨rfl, fun _ => rfl, ?_, rfl⟩
          intro e _ habs
          exact absurd habs (by simp)
        | some e0 =>
          refine ⟨rfl, ?_, ?_, rfl⟩
          · intro hmem
            exact absurd hmem (by simp)
          · intro e _ hee
            obtain rfl : e0 = e := by injection hee
            exact ⟨by simp, rfl, rfl⟩
  | none =>
    rw [onSubmit_noFile d env hs, afterUploadStage_eq]
    cases he : env.insertError with
    | none =>
      refine ⟨rfl, fun _ => rfl, ?_, rfl⟩
      intro e _ habs
      exact absurd habs (by simp)
    | some e0 =>
      refine ⟨rfl, ?_, ?_, rfl⟩
      · intro hmem
        exact absurd hmem (by simp)
      · intro e _ hee
        obtain rfl : e0 = e := by injection hee
        exact ⟨by simp, rfl, rfl⟩

/-- C4 witness: on the sample draft with a failing insert, the callback
does not fire, the success state stays false, the raw error message is
surfaced, and the draft is preserved. -/
theorem C4_witness :
    Event.successCallback ∉ (onSubmit draftBase envInsertFail).events ∧
    (onSubmit draftBase envInsertFail).submitSuccess = false ∧
    (onSubmit draftBase envInsertFail).submitError = some (caughtMsg (some "duplicate key")) ∧
    (onSubmit draftBase envInsertFail).draftAfter = draftBase := by
  have h := C4_success_callback draftBase envInsertFail
  have h2 := h.2.2.1 (some "duplicate key") (by decide) rfl
  exact ⟨h2.1, h2.2.1, h2.2.2, h.2.2.2⟩

/-- C5 counterexample: the claim says the inserted record equals the
normalized payload plus the attachment URL, differing only by it.  It does
not: the payload's nested support_letter object carries the original
attachment file name, which the record omits.  Two drafts differing only
in the attached file's name ("a.pdf" versus "b.pdf") produce identical
insert records but distinct webhook payloads, so the record is not the
payload plus the URL. -/
theorem C5_counterexample :
    insertRecord draftBase "u" = insertRecord draftAltName "u" ∧
    formPayload draftBase "u" ≠ formPayload draftAltName "u" := by
  exact ⟨rfl, by decide⟩

/-- C5 amended: both webhooks are POSTed the normalized payload and the
insert receives the record built from the same draft and the same resolved
URL; the record agrees with the payload on every shared scalar field and
its support_letter_url equals the payload's nested file_url — but the
payload additionally carries the original attachment file name, which the
record omits. -/
theorem C5_payload_record_agreement :
    (∀ (d : FormData) (url : String),
      (insertRecord d url).is_for_child = (formPayload d url).is_for_child ∧
      (insertRecord d url).applicant_name = (formPayload d url).applicant_name ∧
      (insertRecord d url).date_of_birth = (formPayload d url).date_of_birth ∧
      (insertRecord d url).mailing_address = (formPayload d url).mailing_address ∧
      (insertRecord d url).email = (formPayload d url).email ∧
      (insertRecord d url).phone_number = (formPayload d url).phone_number ∧
      (insertRecord d url).date_requested = (formPayload d url).date_requested ∧
      (insertRecord d url).funds_usage = (formPayload d url).funds_usage ∧
      (insertRecord d url).previous_grant = (formPayload d url).previous_grant ∧
      (insertRecord d url).previous_grant_usage = (formPayload d url).previous_grant_usage ∧
      (insertRecord d url).verify_information = (formPayload d url).verify_information ∧
      (insertRecord d url).support_letter_url = (formPayload d url).support_letter.file_url) ∧
    (∀ (d : FormData) (env : Env) (p : FormPayload),
      (Event.makeWebhook p ∈ (onSubmit d env).events ∨
        Event.retoolWebhook p ∈ (onSubmit d env).events) →
      ∃ url, p = formPayload d url ∧
        Event.insert (insertRecord d url) ∈ (onSubmit d env).events) := by
  constructor
  · intro d url
    exact ⟨rfl, rfl, rfl, rfl, rfl, rfl, rfl, rfl, rfl, rfl, rfl, rfl⟩
  · intro d env p hp
    cases hs : d.supportLetter with
    | some f =>
      cases hu : env.uploadError with
      | true =>
        rw [onSubmit_uploadErr d env f hs hu] at hp
        rcases hp with hp | hp <;> exact absurd hp (by simp)
      | false =>
        cases hc : checkFailed env with
        | true =>
          rw [onSubmit_checkFail d env f hs hu hc] at hp
          rcases hp with hp | hp <;> exact absurd hp (by simp)
        | false =>
          rw [onSubmit_uploadOk d env f hs hu hc, afterUploadStage_eq] at hp ⊢
          refine ⟨env.publicUrl (fileName d.applicantName f.name), ?_, ?_⟩
          · rcases hp with hp | hp <;>
              cases he : env.insertError <;> rw [he] at hp <;> simpa using hp
          · cases he : env.insertError <;> simp
    | none =>
      rw [onSubmit_noFile d env hs, afterUploadStage_eq] at hp ⊢
      refine ⟨"", ?_, ?_⟩
      · rcases hp with hp | hp <;>
          cases he : env.insertError <;> rw [he] at hp <;> simpa using hp
      · cases he : env.insertError <;> simp

/-- C5 witness: the field agreement at a concrete draft and URL, and the
payload-to-insert linkage on the all-success run of the sample draft. -/
theorem C5_witness :
    (insertRecord draftBase "u").support_letter_url =
      (formPayload draftBase "u").support_letter.file_url ∧
    (∃ url, formPayload draftBase "https://cdn.example/Jane-Doe-Support-Letter.pdf" =
      formPayload draftBase url ∧
      Event.insert (insertRecord draftBase url) ∈ (onSubmit draftBase envOk).events) := by
  constructor
  · exact (C5_payload_record_agreement.1 draftBase "u").2.2.2.2.2.2.2.2.2.2.2
  · exact C5_payload_record_agreement.2 draftBase envOk
      (formPayload draftBase "https://cdn.example/Jane-Doe-Support-Letter.pdf")
      (Or.inl (by decide))

/-- C10: when the draft carries no attachment, onSubmit issues no storage
event at all — no upload, no URL resolution, no listing query — and
proceeds directly to the webhooks and the insert, whose record has
support_letter_url equal to the empty string; no error arises from the
skipped stage, so with a successful insert the run succeeds cleanly. -/
theorem C10_no_attachment :
    ∀ (d : FormData) (env : Env), d.supportLetter = none →
      (onSubmit d env).events =
        [Event.makeWebhook (formPayload d ""),
         Event.retoolWebhook (formPayload d ""),
         Event.insert (insertRecord d "")] ++
        (match env.insertError with
         | none => [Event.successCallback]
         | some _ => []) ∧
      (insertRecord d "").support_letter_url = "" ∧
      (∀ n : String,
        Event.upload n ∉ (onSubmit d env).events ∧
        Event.getPublicUrl n ∉ (onSubmit d env).events ∧
        Event.listQuery n ∉ (onSubmit d env).events) ∧
      (env.insertError = none →
        (onSubmit d env).submitSuccess = true ∧
        (onSubmit d env).submitError = none) := by
  intro d env hs
  rw [onSubmit_noFile d env hs, afterUploadStage_eq]
  refine ⟨by simp, rfl, ?_, ?_⟩
  · intro n
    cases he : env.insertError <;>
      exact ⟨by simp, by simp, by simp⟩
  · intro he
    rw [he]
    exact ⟨rfl, rfl⟩

/-- C10 witness: the attachment-free sample draft in the all-success
environment skips the storage stage and inserts the empty URL. -/
theorem C10_witness :
    (onSubmit draftNoFile envOk).events =
      [Event.makeWebhook (formPayload draftNoFile ""),
       Event.retoolWebhook (formPayload draftNoFile ""),
       Event.insert (insertRecord draftNoFile "")] ++ [Event.successCallback] ∧
    (insertRecord draftNoFile "").support_letter_url = "" ∧
    (onSubmit draftNoFile envOk).submitSuccess = true ∧
    (onSubmit draftNoFile envOk).submitError = none := by
  have h := C10_no_attachment draftNoFile envOk rfl
  have h2 := h.2.2.2 rfl
  exact ⟨h.1, h.2.1, h2.1, h2.2⟩

end RETForm
